import Mathlib

/-!
Verification development for `generate_paper_html.py`, a script that fetches an
author's publications from Google Scholar, normalizes them, sorts them by year
descending, and writes three output sinks (JSON, Jekyll YAML, HTML preview).

The external scholarly library is modelled as an input oracle: the top-level
author fetch either fails (`none`) or yields an `AuthorRecord` whose
publication entries are each either a successfully filled `RawPub` or `none`
(detail expansion raised). File-system effects of `main` and the three sinks
are modelled as a trace of `Action`s, with a `World` oracle deciding which
writes succeed.
-/

/-- A Python scalar as it can appear in the `pub_year` bib field returned by
scholarly: either an integer or a string. -/
inductive PyVal where
  | int (n : Int)
  | str (s : String)
  deriving Repr, DecidableEq

/-- The `bib` sub-dictionary of a filled publication; every field may be
missing, mirroring `pub_filled['bib'].get(...)` accesses in the script. -/
structure RawBib where
  title : Option String
  author : Option String
  journal : Option String
  conference : Option String
  pub_year : Option PyVal
  abstract : Option String
  deriving Repr, DecidableEq

/-- A successfully filled publication record (`pub_filled`): its `bib`
dictionary, the optional `num_citations` count, and the provider-assigned
`author_pub_id` (present on every filled record). -/
structure RawPub where
  bib : RawBib
  num_citations : Option Int
  author_pub_id : String
  deriving Repr, DecidableEq

/-- The normalized publication dictionary built at lines 37-46 of the
script (`pub_dict`). -/
structure Publication where
  title : String
  authors : String
  venue : String
  year : PyVal
  citations : Int
  url : String
  abstract : String
  bib_id : String
  deriving Repr, DecidableEq

/-- Citation statistics taken from the filled author record (lines 22-26). -/
structure AuthorStats where
  citations : Int
  h_index : Int
  i10_index : Int
  deriving Repr, DecidableEq

/-- The value returned by `get_author_publications` on success
(lines 59-63): stats, the sorted publication list, and a timestamp. -/
structure Snapshot where
  stats : AuthorStats
  publications : List Publication
  last_updated : String
  deriving Repr, DecidableEq

/-- The filled author record, as produced by `scholarly.search_author_id`
followed by `scholarly.fill`.  Each entry of `publications` is the outcome of
`scholarly.fill(pub)` for one stub: `some` a filled record, or `none` when the
fill raised (the per-publication `except` path at lines 52-54). -/
structure AuthorRecord where
  citedby : Int
  hindex : Int
  i10index : Int
  publications : List (Option RawPub)
  deriving Repr, DecidableEq

/-- Numeric value of a digit run, most significant first. -/
def natFromDigits (ds : List Char) : Nat :=
  ds.foldl (fun a c => a * 10 + (c.toNat - 48)) 0

/-- Strip leading and trailing whitespace from a character list. -/
def trimChars (l : List Char) : List Char :=
  ((l.dropWhile Char.isWhitespace).reverse.dropWhile Char.isWhitespace).reverse

/-- Decimal integer syntax accepted by Python `int()` after stripping:
an optional sign followed by a nonempty digit run. -/
def pyIntOfChars : List Char → Option Int
  | [] => none
  | c :: ds =>
    if c = '-' then
      if ds ≠ [] ∧ ds.all Char.isDigit then some (-(natFromDigits ds : Int))
      else none
    else if c = '+' then
      if ds ≠ [] ∧ ds.all Char.isDigit then some ((natFromDigits ds : Int))
      else none
    else
      if (c :: ds).all Char.isDigit then some ((natFromDigits (c :: ds) : Int))
      else none

/-- Python `int(v)` on a year value: an int converts to itself, a string is
stripped of surrounding whitespace and parsed as a signed decimal integer,
raising (`none`) when it is not numeric. -/
def pyInt : PyVal → Option Int
  | .int n => some n
  | .str s => pyIntOfChars (trimChars s.data)

/-- The fixed Scholar citation-URL prefix used at line 43 of the script. -/
def citationUrlBase : String :=
  "https://scholar.google.com/citations?view_op=view_citation&citation_for_view="

/-- Lines 37-46: build `pub_dict` from a filled publication, substituting
defaults for missing bib fields; `venue` falls back from `journal` to
`conference` to the empty string. -/
def mkPub (p : RawPub) : Publication :=
  { title := p.bib.title.getD ""
    authors := p.bib.author.getD ""
    venue := p.bib.journal.getD (p.bib.conference.getD "")
    year := p.bib.pub_year.getD (.int 0)
    citations := p.num_citations.getD 0
    url := citationUrlBase ++ p.author_pub_id
    abstract := p.bib.abstract.getD ""
    bib_id := p.author_pub_id }

/-- The publication list accumulated by the loop at lines 32-54: each stub
whose fill succeeded contributes its normalized `pub_dict`; failed fills are
skipped. -/
def normPubs (a : AuthorRecord) : List Publication :=
  a.publications.filterMap (fun o => o.map mkPub)

/-- The sort key `int(x['year'])` of line 57, with 0 standing in for the
value on unparseable years (the sort is only ever applied once every key is
known to parse). -/
def pubYearKey (p : Publication) : Int :=
  (pyInt p.year).getD 0

/-- Insert `x` into `l` directly before the first element whose key is at
most `key x`.  Auxiliary for `sortDesc`. -/
def insertDesc {α : Type} (key : α → Int) (x : α) : List α → List α
  | [] => [x]
  | y :: ys => if key y ≤ key x then x :: y :: ys else y :: insertDesc key x ys

/-- The stable descending sort performed by
`publications.sort(key=lambda x: int(x['year']), reverse=True)` at line 57:
keys non-increasing, equal keys keep their input order.  Python's sort is
stable, and a stable key sort is extensionally unique, so any stable
descending sort is a faithful model. -/
def sortDesc {α : Type} (key : α → Int) : List α → List α
  | [] => []
  | x :: xs => insertDesc key x (sortDesc key xs)

/-- `get_author_publications` (lines 10-67).  `fetched` is the outcome of the
author lookup and fill: `none` when it raised (outer `except`, returns
`None`).  On success the per-stub loop keeps the normalized records whose
fill succeeded, then sorts by `int(year)` descending; if any kept record has
a year that `int()` cannot parse, the sort raises, the outer `except`
catches it, and the function returns `None`.  `now` models
`datetime.datetime.now().strftime(...)`. -/
def get_author_publications (fetched : Option AuthorRecord) (now : String) :
    Option Snapshot :=
  match fetched with
  | none => none
  | some author =>
    let stats : AuthorStats :=
      { citations := author.citedby
        h_index := author.hindex
        i10_index := author.i10index }
    let publications := normPubs author
    if publications.all (fun p => (pyInt p.year).isSome) then
      some { stats := stats
             publications := sortDesc pubYearKey publications
             last_updated := now }
    else
      none

/-- Lowercase hexadecimal digit characters, as emitted by the JSON
serializer's control-character escapes. -/
def hexChar : Nat → Char
  | 0 => '0'
  | 1 => '1'
  | 2 => '2'
  | 3 => '3'
  | 4 => '4'
  | 5 => '5'
  | 6 => '6'
  | 7 => '7'
  | 8 => '8'
  | 9 => '9'
  | 10 => 'a'
  | 11 => 'b'
  | 12 => 'c'
  | 13 => 'd'
  | 14 => 'e'
  | 15 => 'f'
  | _ => '0'

/-- JSON string escaping with `ensure_ascii=False`: only the quote, the
backslash and control characters below 0x20 are escaped; everything else
(including non-ASCII) is emitted verbatim. -/
def escapeChar (c : Char) : List Char :=
  if c = '"' then ['\\', '"']
  else if c = '\\' then ['\\', '\\']
  else if c = '\n' then ['\\', 'n']
  else if c = '\r' then ['\\', 'r']
  else if c = '\t' then ['\\', 't']
  else if c = '\x08' then ['\\', 'b']
  else if c = '\x0c' then ['\\', 'f']
  else if c.toNat < 32 then
    ['\\', 'u', '0', '0', hexChar (c.toNat / 16), hexChar (c.toNat % 16)]
  else [c]

/-- Escape every character of a string body. -/
def escapeList : List Char → List Char
  | [] => []
  | c :: cs => escapeChar c ++ escapeList cs

/-- A JSON string literal: quote, escaped body, quote. -/
def renderStr (s : String) : List Char :=
  '"' :: (escapeList s.data ++ ['"'])

/-- Decimal digits of a natural number, most significant first. -/
def natDigits (n : Nat) : List Char :=
  if _h : n < 10 then [hexChar n]
  else natDigits (n / 10) ++ [hexChar (n % 10)]
  termination_by n
  decreasing_by
    exact Nat.div_lt_self (by omega) (by omega)

/-- Decimal rendering of an integer, with a leading minus sign when
negative. -/
def renderInt (i : Int) : List Char :=
  if i < 0 then '-' :: natDigits (-i).toNat else natDigits i.toNat

/-- A year value serializes as a JSON number or a JSON string according to
its Python type. -/
def renderPyVal : PyVal → List Char
  | .int n => renderInt n
  | .str s => renderStr s

/-- Hexadecimal digit value of a character, for `\uXXXX` escapes. -/
def hexVal (c : Char) : Option Nat :=
  if '0' ≤ c ∧ c ≤ '9' then some (c.toNat - 48)
  else if 'a' ≤ c ∧ c ≤ 'f' then some (c.toNat - 87)
  else if 'A' ≤ c ∧ c ≤ 'F' then some (c.toNat - 55)
  else none

/-- Parse the body of a JSON string up to and including the closing quote,
returning the unescaped characters and the remaining input. -/
def parseStrBody : List Char → Option (List Char × List Char)
  | [] => none
  | c :: rest =>
    if c = '"' then some ([], rest)
    else if c = '\\' then
      match rest with
      | [] => none
      | e :: rest2 =>
        if e = '"' then (parseStrBody rest2).map (fun p => ('"' :: p.1, p.2))
        else if e = '\\' then (parseStrBody rest2).map (fun p => ('\\' :: p.1, p.2))
        else if e = '/' then (parseStrBody rest2).map (fun p => ('/' :: p.1, p.2))
        else if e = 'n' then (parseStrBody rest2).map (fun p => ('\n' :: p.1, p.2))
        else if e = 'r' then (parseStrBody rest2).map (fun p => ('\r' :: p.1, p.2))
        else if e = 't' then (parseStrBody rest2).map (fun p => ('\t' :: p.1, p.2))
        else if e = 'b' then (parseStrBody rest2).map (fun p => ('\x08' :: p.1, p.2))
        else if e = 'f' then (parseStrBody rest2).map (fun p => ('\x0c' :: p.1, p.2))
        else if e = 'u' then
          match rest2 with
          | h1 :: h2 :: h3 :: h4 :: rest3 =>
            match hexVal h1, hexVal h2, hexVal h3, hexVal h4 with
            | some a, some b, some c2, some d =>
              let v := ((a * 16 + b) * 16 + c2) * 16 + d
              if _hv : Nat.isValidChar v then
                (parseStrBody rest3).map (fun p => (Char.ofNat v :: p.1, p.2))
              else none
            | _, _, _, _ => none
          | _ => none
        else none
    else (parseStrBody rest).map (fun p => (c :: p.1, p.2))

/-- Parse a JSON string literal (expects the opening quote). -/
def parseJString (l : List Char) : Option (String × List Char) :=
  match l with
  | [] => none
  | c :: rest =>
    if c = '"' then (parseStrBody rest).map (fun p => (String.mk p.1, p.2))
    else none

/-- Split off the maximal leading run of decimal digits. -/
def takeDigits : List Char → List Char × List Char
  | [] => ([], [])
  | c :: rest =>
    if c.isDigit then
      let p := takeDigits rest
      (c :: p.1, p.2)
    else ([], c :: rest)

/-- Parse a nonempty run of decimal digits as a natural number. -/
def parseJNat (l : List Char) : Option (Nat × List Char) :=
  let p := takeDigits l
  if p.1.isEmpty then none else some (natFromDigits p.1, p.2)

/-- Parse a JSON integer: optional minus sign, then digits (maximal
munch). -/
def parseJInt (l : List Char) : Option (Int × List Char) :=
  match l with
  | [] => none
  | c :: rest =>
    if c = '-' then (parseJNat rest).map (fun p => (-(p.1 : Int), p.2))
    else (parseJNat (c :: rest)).map (fun p => ((p.1 : Int), p.2))

/-- Parse a year value: a string if it opens with a quote, else an
integer. -/
def parseJVal (l : List Char) : Option (PyVal × List Char) :=
  match l with
  | [] => none
  | c :: rest =>
    if c = '"' then (parseStrBody rest).map (fun p => (.str (String.mk p.1), p.2))
    else (parseJInt (c :: rest)).map (fun p => (.int p.1, p.2))

/-- Consume an exact literal prefix. -/
def expects : List Char → List Char → Option (List Char)
  | [], l => some l
  | _ :: _, [] => none
  | c :: cs, d :: l => if c = d then expects cs l else none

/-- Fixed fragments of the `json.dump(..., indent=2)` output for a snapshot
dictionary with keys `stats`, `publications`, `last_updated` (insertion
order), nested as the script builds it. -/
def litHead : String := "\x7b\n  \"stats\": \x7b\n    \"citations\": "

def litHIndex : String := ",\n    \"h_index\": "

def litI10 : String := ",\n    \"i10_index\": "

def litPubsKey : String := "\n  \x7d,\n  \"publications\": "

def litLastUpdated : String := ",\n  \"last_updated\": "

def litTail : String := "\n\x7d"

def litPubOpen : String := "    \x7b\n      \"title\": "

def litAuthors : String := ",\n      \"authors\": "

def litVenue : String := ",\n      \"venue\": "

def litYear : String := ",\n      \"year\": "

def litCitations : String := ",\n      \"citations\": "

def litUrl : String := ",\n      \"url\": "

def litAbstract : String := ",\n      \"abstract\": "

def litBibId : String := ",\n      \"bib_id\": "

def litPubClose : String := "\n    \x7d"

def litListSep : String := ",\n"

def litListClose : String := "\n  ]"

def litListEmpty : String := "[]"

def litListOpen : String := "[\n"

/-- One publication object as `json.dump` with `indent=2` renders it at
depth 2 (keys in the insertion order of `pub_dict`). -/
def renderPub (p : Publication) : List Char :=
  litPubOpen.data ++ renderStr p.title ++
  litAuthors.data ++ renderStr p.authors ++
  litVenue.data ++ renderStr p.venue ++
  litYear.data ++ renderPyVal p.year ++
  litCitations.data ++ renderInt p.citations ++
  litUrl.data ++ renderStr p.url ++
  litAbstract.data ++ renderStr p.abstract ++
  litBibId.data ++ renderStr p.bib_id ++
  litPubClose.data

/-- Remaining publications of a nonempty array, each preceded by the item
separator. -/
def renderPubsTail : List Publication → List Char
  | [] => []
  | p :: ps => litListSep.data ++ renderPub p ++ renderPubsTail ps

/-- The publications array: `[]` when empty, otherwise bracketed items. -/
def renderPubs : List Publication → List Char
  | [] => litListEmpty.data
  | p :: ps => litListOpen.data ++ renderPub p ++ renderPubsTail ps ++ litListClose.data

/-- The full `json.dump(data, f, ensure_ascii=False, indent=2)` text for a
snapshot, as a character list. -/
def renderSnapshotList (s : Snapshot) : List Char :=
  litHead.data ++ renderInt s.stats.citations ++
  litHIndex.data ++ renderInt s.stats.h_index ++
  litI10.data ++ renderInt s.stats.i10_index ++
  litPubsKey.data ++ renderPubs s.publications ++
  litLastUpdated.data ++ renderStr s.last_updated ++
  litTail.data

/-- The text written by `save_publications` (line 76 of the script). -/
def jsonDumpText (s : Snapshot) : String :=
  String.mk (renderSnapshotList s)

/-- Parse one publication object of the emitted document. -/
def parsePub (l : List Char) : Option (Publication × List Char) :=
  match expects litPubOpen.data l with
  | none => none
  | some l =>
  match parseJString l with
  | none => none
  | some (title, l) =>
  match expects litAuthors.data l with
  | none => none
  | some l =>
  match parseJString l with
  | none => none
  | some (authors, l) =>
  match expects litVenue.data l with
  | none => none
  | some l =>
  match parseJString l with
  | none => none
  | some (venue, l) =>
  match expects litYear.data l with
  | none => none
  | some l =>
  match parseJVal l with
  | none => none
  | some (year, l) =>
  match expects litCitations.data l with
  | none => none
  | some l =>
  match parseJInt l with
  | none => none
  | some (citations, l) =>
  match expects litUrl.data l with
  | none => none
  | some l =>
  match parseJString l with
  | none => none
  | some (url, l) =>
  match expects litAbstract.data l with
  | none => none
  | some l =>
  match parseJString l with
  | none => none
  | some (abstract, l) =>
  match expects litBibId.data l with
  | none => none
  | some l =>
  match parseJString l with
  | none => none
  | some (bib_id, l) =>
  match expects litPubClose.data l with
  | none => none
  | some l =>
    some ({ title := title, authors := authors, venue := venue, year := year,
            citations := citations, url := url, abstract := abstract,
            bib_id := bib_id }, l)

/-- Parse the tail of a nonempty publications array: either the closing
bracket or a separator followed by another publication. -/
def parsePubsTail : Nat → List Char → Option (List Publication × List Char)
  | 0, _ => none
  | fuel + 1, l =>
    match expects litListClose.data l with
    | some r => some ([], r)
    | none =>
      match expects litListSep.data l with
      | none => none
      | some l1 =>
        match parsePub l1 with
        | none => none
        | some (p, l2) => (parsePubsTail fuel l2).map (fun q => (p :: q.1, q.2))

/-- Parse a publications array. -/
def parsePubs (fuel : Nat) (l : List Char) :
    Option (List Publication × List Char) :=
  match expects litListEmpty.data l with
  | some r => some ([], r)
  | none =>
    match expects litListOpen.data l with
    | none => none
    | some l1 =>
      match parsePub l1 with
      | none => none
      | some (p, l2) => (parsePubsTail fuel l2).map (fun q => (p :: q.1, q.2))

/-- Parse the whole emitted snapshot document. -/
def parseSnapshot (l : List Char) : Option (Snapshot × List Char) :=
  let fuel := l.length + 1
  match expects litHead.data l with
  | none => none
  | some l =>
  match parseJInt l with
  | none => none
  | some (cit, l) =>
  match expects litHIndex.data l with
  | none => none
  | some l =>
  match parseJInt l with
  | none => none
  | some (hidx, l) =>
  match expects litI10.data l with
  | none => none
  | some l =>
  match parseJInt l with
  | none => none
  | some (i10, l) =>
  match expects litPubsKey.data l with
  | none => none
  | some l =>
  match parsePubs fuel l with
  | none => none
  | some (pubs, l) =>
  match expects litLastUpdated.data l with
  | none => none
  | some l =>
  match parseJString l with
  | none => none
  | some (lu, l) =>
  match expects litTail.data l with
  | none => none
  | some l =>
    some ({ stats := { citations := cit, h_index := hidx, i10_index := i10 },
            publications := pubs, last_updated := lu }, l)

/-- `json.load` on the written file: parse the document and require that the
whole text is consumed. -/
def jsonLoadText (t : String) : Option Snapshot :=
  match parseSnapshot t.data with
  | some (s, []) => some s
  | _ => none

/-- Python `str()` of a year value, as interpolated into YAML/HTML output. -/
def pyValText : PyVal → String
  | .int n => toString n
  | .str s => s

/-- A double-quoted YAML scalar (the emitter model always quotes strings;
`allow_unicode=True` keeps non-ASCII characters verbatim). -/
def yamlStrText (s : String) : String :=
  "\"" ++ String.mk (escapeList s.data) ++ "\""

/-- One publication as a YAML block-sequence item (keys in insertion
order). -/
def yamlPub (p : Publication) : String :=
  "- title: " ++ yamlStrText p.title ++
  "\n  authors: " ++ yamlStrText p.authors ++
  "\n  venue: " ++ yamlStrText p.venue ++
  "\n  year: " ++ (match p.year with
                   | .int n => toString n
                   | .str s => yamlStrText s) ++
  "\n  citations: " ++ toString p.citations ++
  "\n  url: " ++ yamlStrText p.url ++
  "\n  abstract: " ++ yamlStrText p.abstract ++
  "\n  bib_id: " ++ yamlStrText p.bib_id ++ "\n"

/-- The publications entry of the YAML document. -/
def yamlPubsText : List Publication → String
  | [] => "publications: []\n"
  | ps => "publications:\n" ++ String.join (ps.map yamlPub)

/-- The text written by `save_publications_for_jekyll` (line 179):
`yaml.dump` of the dictionary rebuilt at lines 171-175 from the snapshot's
`stats`, `publications` and `last_updated` fields, with `sort_keys=False`
keeping insertion order.  The emitter layer is a thin library wrapper; this
models its block-style output shape. -/
def yamlDumpText (s : Snapshot) : String :=
  "stats:\n  citations: " ++ toString s.stats.citations ++
  "\n  h_index: " ++ toString s.stats.h_index ++
  "\n  i10_index: " ++ toString s.stats.i10_index ++ "\n" ++
  yamlPubsText s.publications ++
  "last_updated: " ++ yamlStrText s.last_updated ++ "\n"

/-- The fixed HTML page header and style block (lines 86-106 of the
script). -/
def htmlHeader : String :=
  "\n        <html>\n        <head>\n            <title>Publications Preview</title>\n            <style>\n                body \x7b font-family: Arial, sans-serif; max-width: 1200px; margin: 0 auto; padding: 20px; \x7d\n                .stats \x7b display: flex; justify-content: space-around; margin: 20px 0; padding: 20px; background: #f5f5f5; \x7d\n                .stat-item \x7b text-align: center; \x7d\n                .stat-number \x7b font-size: 24px; font-weight: bold; color: #2d3c48; \x7d\n                .stat-label \x7b color: #666; \x7d\n                .publication \x7b margin: 20px 0; padding: 20px; border: 1px solid #eee; border-radius: 5px; \x7d\n                .title \x7b font-size: 18px; color: #2d3c48; margin-bottom: 10px; \x7d\n                .authors \x7b color: #666; margin-bottom: 5px; \x7d\n                .venue \x7b color: #3e8cb7; \x7d\n                .citations \x7b color: #72b16e; \x7d\n                .year \x7b float: right; color: #666; \x7d\n                .last-updated \x7b text-align: center; color: #666; margin-top: 40px; \x7d\n            </style>\n        </head>\n        <body>\n        "

/-- The stats banner (lines 109-128). -/
def htmlStats (st : AuthorStats) : String :=
  "\n        <div class=\"stats\">\n            <div class=\"stat-item\">\n                <div class=\"stat-number\">" ++
  toString st.citations ++
  "</div>\n                <div class=\"stat-label\">Citations</div>\n            </div>\n            <div class=\"stat-item\">\n                <div class=\"stat-number\">" ++
  toString st.h_index ++
  "</div>\n                <div class=\"stat-label\">h-index</div>\n            </div>\n            <div class=\"stat-item\">\n                <div class=\"stat-number\">" ++
  toString st.i10_index ++
  "</div>\n                <div class=\"stat-label\">i10-index</div>\n            </div>\n        </div>\n        "

/-- One publication block (lines 131-147); fields are interpolated raw. -/
def htmlPub (p : Publication) : String :=
  "\n            <div class=\"publication\">\n                <div class=\"year\">" ++
  pyValText p.year ++
  "</div>\n                <div class=\"title\"><a href=\"" ++ p.url ++
  "\" target=\"_blank\">" ++ p.title ++
  "</a></div>\n                <div class=\"authors\">" ++ p.authors ++
  "</div>\n                <div class=\"venue\">" ++ p.venue ++
  "</div>\n                <div class=\"citations\">" ++ toString p.citations ++
  " citations</div>\n            </div>\n            "

/-- The page written by `generate_html_preview` (lines 86-157). -/
def htmlText (data : Snapshot) : String :=
  htmlHeader ++ htmlStats data.stats ++
  String.join (data.publications.map htmlPub) ++
  "\n        <div class=\"last-updated\">Last updated: " ++ data.last_updated ++
  "</div>\n        </body>\n        </html>\n        "

/-- An observable effect of the script: a printed line, a directory
creation, or a file write. -/
inductive ScriptAction where
  | print (line : String)
  | mkdirp (dir : String)
  | write (path : String) (content : String)
  deriving Repr, DecidableEq

/-- The file-system oracle: which paths can be opened for writing, and
whether `os.makedirs` succeeds. -/
structure World where
  writeOk : String → Bool
  mkdirOk : Bool

/-- Opening and writing a file (`with open(path, 'w') as f: ...`): succeeds
with a write action, or raises (e.g. permission denied). -/
def fsWrite (w : World) (path content : String) : Except String (List ScriptAction) :=
  if w.writeOk path then .ok [.write path content]
  else .error "permission denied"

/-- `os.makedirs('_data', exist_ok=True)`: succeeds with a directory-creation
action (idempotent when the directory exists), or raises. -/
def fsMkdir (w : World) (dir : String) : Except String (List ScriptAction) :=
  if w.mkdirOk then .ok [.mkdirp dir]
  else .error "mkdir failed"

/-- `save_publications` (lines 70-79): try to write the JSON file and report
success; any exception is caught and reported, never propagated. -/
def save_publications (w : World) (data : Snapshot) : List ScriptAction :=
  match fsWrite w "publications.json" (jsonDumpText data) with
  | .ok acts =>
      acts ++ [.print "Successfully saved publications to publications.json"]
  | .error e => [.print ("Error saving publications: " ++ e)]

/-- `save_publications_for_jekyll` (lines 162-182): create `_data` if
needed, then write the YAML file; any exception is caught and reported. -/
def save_publications_for_jekyll (w : World) (data : Snapshot) : List ScriptAction :=
  match fsMkdir w "_data" with
  | .error e => [.print ("Error saving publications: " ++ e)]
  | .ok acts1 =>
    match fsWrite w "_data/publications.yml" (yamlDumpText data) with
    | .ok acts2 =>
        acts1 ++ acts2 ++
          [.print "Successfully saved publications to _data/publications.yml"]
    | .error e => acts1 ++ [.print ("Error saving publications: " ++ e)]

/-- `generate_html_preview` (lines 81-160): render the page, try to write
it; any exception is caught and reported. -/
def generate_html_preview (w : World) (data : Snapshot) : List ScriptAction :=
  match fsWrite w "publications_preview.html" (htmlText data) with
  | .ok acts =>
      acts ++
        [.print "Successfully generated HTML preview at publications_preview.html"]
  | .error e => [.print ("Error generating HTML preview: " ++ e)]

/-- The summary block printed at lines 201-206 on success. -/
def statsReport (data : Snapshot) : List ScriptAction :=
  [.print "\nStats:",
   .print ("Total citations: " ++ toString data.stats.citations),
   .print ("h-index: " ++ toString data.stats.h_index),
   .print ("i10-index: " ++ toString data.stats.i10_index),
   .print ("\nTotal publications processed: " ++
     toString data.publications.length),
   .print ("Last updated: " ++ data.last_updated)]

/-- `main` (lines 184-208): fetch, then — when a snapshot exists — run the
three sinks in sequence and print the summary; otherwise print the failure
line.  The result is `Except` so that an uncaught exception anywhere in the
body would surface as `.error`; every branch in fact completes. -/
def pyMain (w : World) (fetched : Option AuthorRecord) (now : String) :
    Except String (List ScriptAction) :=
  let header := ScriptAction.print "Fetching publications from Google Scholar..."
  match get_author_publications fetched now with
  | some data =>
      .ok (header ::
        (save_publications w data ++
         save_publications_for_jekyll w data ++
         generate_html_preview w data ++
         statsReport data))
  | none => .ok [header, .print "Failed to fetch publications"]

/-- Process exit status: a normal return of `main` exits 0; an uncaught
exception would exit nonzero. -/
def pyExitCode (r : Except String (List ScriptAction)) : Nat :=
  match r with
  | .ok _ => 0
  | .error _ => 1

/-- The files written during a run, with their contents. -/
def writesOf (acts : List ScriptAction) : List (String × String) :=
  acts.filterMap (fun a =>
    match a with
    | .write p c => some (p, c)
    | _ => none)

/-- `true` when the input does not begin with a decimal digit, so a maximal
digit munch before it stops exactly there. -/
def noDigitHead (l : List Char) : Bool :=
  match l with
  | [] => true
  | c :: _ => !c.isDigit

/-- The single status line `save_publications` prints, as a function of the
world. -/
def jsonReport (w : World) : ScriptAction :=
  if w.writeOk "publications.json" then
    .print "Successfully saved publications to publications.json"
  else .print "Error saving publications: permission denied"

/-- The single status line `save_publications_for_jekyll` prints. -/
def yamlReport (w : World) : ScriptAction :=
  if w.mkdirOk then
    (if w.writeOk "_data/publications.yml" then
      .print "Successfully saved publications to _data/publications.yml"
    else .print "Error saving publications: permission denied")
  else .print "Error saving publications: mkdir failed"

/-- The single status line `generate_html_preview` prints. -/
def htmlReport (w : World) : ScriptAction :=
  if w.writeOk "publications_preview.html" then
    .print "Successfully generated HTML preview at publications_preview.html"
  else .print "Error generating HTML preview: permission denied"

def c1Stub (y : Int) (t : String) : RawPub :=
  ⟨⟨some t, none, none, none, some (.int y), none⟩, none, t⟩

def c1Author : AuthorRecord :=
  ⟨0, 0, 0, [some (c1Stub 2020 "A"), some (c1Stub 2022 "B"), some (c1Stub 2020 "C")]⟩

def c1Snap : Snapshot :=
  ⟨⟨0, 0, 0⟩, [mkPub (c1Stub 2022 "B"), mkPub (c1Stub 2020 "A"), mkPub (c1Stub 2020 "C")], "t"⟩

def c3Stub (y : Int) (t : String) : RawPub :=
  ⟨⟨some t, none, none, none, some (.int y), none⟩, none, t⟩

def c3Author : AuthorRecord :=
  ⟨1, 2, 3, [some (c3Stub 2019 "X"), none, some (c3Stub 2021 "Y")]⟩

def c3Snap : Snapshot :=
  ⟨⟨1, 2, 3⟩, [mkPub (c3Stub 2021 "Y"), mkPub (c3Stub 2019 "X")], "now"⟩

def c10Stub : RawPub :=
  ⟨⟨some "Z", none, none, none, some (.str "in press"), none⟩, none, "z"⟩

def c10Author : AuthorRecord := ⟨0, 0, 0, [some c10Stub]⟩

def c6Snap : Snapshot :=
  ⟨⟨1180591620717411303424, 10, 9⟩,
   [⟨"Paper — ∀x", "José Müller, 李雷", "", .str "2020", -5, "u", "ab\"c\\d\ne", "id1"⟩],
   "2024-01-01 00:00:00"⟩

def c5World : World := { writeOk := fun p => p != "publications.json", mkdirOk := true }

def c5Author : AuthorRecord := ⟨5, 6, 7, []⟩

def c5Snap : Snapshot := ⟨⟨5, 6, 7⟩, [], "ts"⟩

def c5Acts : List ScriptAction :=
  ScriptAction.print "Fetching publications from Google Scholar..." ::
    (save_publications c5World c5Snap ++ save_publications_for_jekyll c5World c5Snap ++
     generate_html_preview c5World c5Snap ++ statsReport c5Snap)

theorem insertDesc_perm {α : Type} (key : α → Int) (x : α) (l : List α) :
    (insertDesc key x l).Perm (x :: l) := by
  induction l with
  | nil => simp [insertDesc]
  | cons y ys ih =>
    simp only [insertDesc]
    split
    · exact List.Perm.refl _
    · exact (ih.cons y).trans (List.Perm.swap x y ys)

theorem sortDesc_perm {α : Type} (key : α → Int) (l : List α) :
    (sortDesc key l).Perm l := by
  induction l with
  | nil => simp [sortDesc]
  | cons x xs ih =>
    exact (insertDesc_perm key x (sortDesc key xs)).trans (ih.cons x)

theorem mem_insertDesc {α : Type} {key : α → Int} {x z : α} {l : List α} :
    z ∈ insertDesc key x l ↔ z = x ∨ z ∈ l := by
  have h := (insertDesc_perm key x l).mem_iff (a := z)
  simpa using h

theorem insertDesc_pairwise {α : Type} (key : α → Int) (x : α) (l : List α)
    (h : l.Pairwise (fun a b => key b ≤ key a)) :
    (insertDesc key x l).Pairwise (fun a b => key b ≤ key a) := by
  induction l with
  | nil => simp [insertDesc]
  | cons y ys ih =>
    rcases List.pairwise_cons.mp h with ⟨hy, hys⟩
    simp only [insertDesc]
    split
    · rename_i hle
      refine List.pairwise_cons.mpr ⟨?_, h⟩
      intro z hz
      rcases List.mem_cons.mp hz with hz | hz
      · subst hz; exact hle
      · exact le_trans (hy z hz) hle
    · rename_i hgt
      refine List.pairwise_cons.mpr ⟨?_, ih hys⟩
      intro z hz
      rcases mem_insertDesc.mp hz with hz | hz
      · subst hz; omega
      · exact hy z hz

theorem sortDesc_pairwise {α : Type} (key : α → Int) (l : List α) :
    (sortDesc key l).Pairwise (fun a b => key b ≤ key a) := by
  induction l with
  | nil => simp [sortDesc]
  | cons x xs ih => exact insertDesc_pairwise key x (sortDesc key xs) ih

theorem filter_insertDesc {α : Type} (key : α → Int) (x : α) (l : List α)
    (y : Int) :
    (insertDesc key x l).filter (fun a => key a == y) =
      if key x == y then x :: l.filter (fun a => key a == y)
      else l.filter (fun a => key a == y) := by
  induction l with
  | nil => by_cases hx : key x == y <;> simp [insertDesc, List.filter, hx]
  | cons z zs ih =>
    simp only [insertDesc]
    split
    · rename_i hle
      by_cases hx : key x == y <;> simp [List.filter, hx]
    · rename_i hgt
      by_cases hx : key x == y
      · have hxy : key x = y := by simpa using hx
        have hz : (key z == y) = false := by
          have : ¬ key z ≤ key x := hgt
          simp only [beq_eq_false_iff_ne, ne_eq]
          omega
        simp [List.filter, hz, ih, hx]
      · have hx' : (key x == y) = false := by
          simpa using hx
        by_cases hz : key z == y <;> simp [List.filter, hz, ih, hx']

theorem filter_sortDesc {α : Type} (key : α → Int) (l : List α) (y : Int) :
    (sortDesc key l).filter (fun a => key a == y) =
      l.filter (fun a => key a == y) := by
  induction l with
  | nil => simp [sortDesc]
  | cons x xs ih =>
    simp only [sortDesc]
    rw [filter_insertDesc]
    by_cases hx : key x == y <;> simp [List.filter, hx, ih]

theorem expects_append (lit rest : List Char) :
    expects lit (lit ++ rest) = some rest := by
  induction lit with
  | nil => simp [expects]
  | cons c cs ih => simp [expects, ih]

theorem hexVal_hexChar : ∀ n < 16, hexVal (hexChar n) = some n := by decide

theorem hexVal_zero : hexVal '0' = some 0 := by decide

theorem hexChar_isDigit : ∀ n < 10, (hexChar n).isDigit = true := by decide

theorem hexChar_toNat : ∀ n < 10, (hexChar n).toNat - 48 = n := by decide

theorem natDigits_forall_digit (n : Nat) :
    ∀ c ∈ natDigits n, c.isDigit = true := by
  induction n using Nat.strong_induction_on with
  | _ n ih =>
    rw [natDigits]
    split
    · intro c hc
      rcases List.mem_singleton.mp hc with rfl
      exact hexChar_isDigit n (by omega)
    · intro c hc
      rcases List.mem_append.mp hc with hc | hc
      · exact ih (n / 10) (Nat.div_lt_self (by omega) (by omega)) c hc
      · rcases List.mem_singleton.mp hc with rfl
        exact hexChar_isDigit (n % 10) (by omega)

theorem natDigits_ne_nil (n : Nat) : natDigits n ≠ [] := by
  rw [natDigits]
  split
  · simp
  · simp

theorem natFromDigits_append (xs : List Char) (c : Char) :
    natFromDigits (xs ++ [c]) = natFromDigits xs * 10 + (c.toNat - 48) := by
  simp [natFromDigits, List.foldl_append]

theorem natFromDigits_natDigits (n : Nat) :
    natFromDigits (natDigits n) = n := by
  induction n using Nat.strong_induction_on with
  | _ n ih =>
    rw [natDigits]
    split
    · rename_i h
      have := hexChar_toNat n (by omega)
      simp [natFromDigits]
      omega
    · rename_i h
      rw [natFromDigits_append, ih (n / 10) (Nat.div_lt_self (by omega) (by omega))]
      have := hexChar_toNat (n % 10) (by omega)
      omega

theorem takeDigits_append (ds rest : List Char)
    (hds : ∀ c ∈ ds, c.isDigit = true) (hrest : noDigitHead rest = true) :
    takeDigits (ds ++ rest) = (ds, rest) := by
  induction ds with
  | nil =>
    cases rest with
    | nil => simp [takeDigits]
    | cons c t =>
      have hc : c.isDigit = false := by
        simpa [noDigitHead] using hrest
      simp [takeDigits, hc]
  | cons c cs ih =>
    have hc : c.isDigit = true := hds c (List.mem_cons_self c cs)
    have ih2 := ih (fun d hd => hds d (List.mem_cons_of_mem c hd))
    simp [takeDigits, hc, ih2]

theorem parseJNat_append (n : Nat) (rest : List Char)
    (h : noDigitHead rest = true) :
    parseJNat (natDigits n ++ rest) = some (n, rest) := by
  unfold parseJNat
  rw [takeDigits_append _ _ (natDigits_forall_digit n) h]
  simp [natDigits_ne_nil, natFromDigits_natDigits]

theorem parseJInt_append (i : Int) (rest : List Char)
    (h : noDigitHead rest = true) :
    parseJInt (renderInt i ++ rest) = some (i, rest) := by
  unfold renderInt
  split
  · rename_i hneg
    have htn : (((-i).toNat : Int)) = -i := Int.toNat_of_nonneg (by omega)
    simp only [List.cons_append]
    rw [parseJInt]
    simp [parseJNat_append _ _ h, htn]
  · rename_i hpos
    obtain ⟨d, ds, hd⟩ := List.exists_cons_of_ne_nil (natDigits_ne_nil i.toNat)
    have hdd : d.isDigit = true :=
      natDigits_forall_digit i.toNat d (by rw [hd]; exact List.mem_cons_self d ds)
    have hdm : ¬ d = '-' := by
      intro hcon
      rw [hcon] at hdd
      simp at hdd
    have hshape : natDigits i.toNat ++ rest = d :: (ds ++ rest) := by
      rw [hd]; simp
    rw [hshape, parseJInt]
    have hback : d :: (ds ++ rest) = natDigits i.toNat ++ rest := hshape.symm
    simp only [hdm, if_false]
    rw [hback, parseJNat_append _ _ h]
    have htn : ((i.toNat : Int)) = i := Int.toNat_of_nonneg (by omega)
    simp [htn]

theorem parseStrBody_u (c : Char) (hc : c.toNat < 32) (t : List Char) :
    parseStrBody ('\\' :: 'u' :: '0' :: '0' :: hexChar (c.toNat / 16) ::
        hexChar (c.toNat % 16) :: t) =
      (parseStrBody t).map (fun p => (c :: p.1, p.2)) := by
  have hv1 : hexVal (hexChar (c.toNat / 16)) = some (c.toNat / 16) :=
    hexVal_hexChar _ (by omega)
  have hv2 : hexVal (hexChar (c.toNat % 16)) = some (c.toNat % 16) :=
    hexVal_hexChar _ (by omega)
  rw [parseStrBody]
  simp only [reduceIte, hexVal_zero, hv1, hv2]
  have hval : ((0 * 16 + 0) * 16 + c.toNat / 16) * 16 + c.toNat % 16 = c.toNat := by
    omega
  rw [hval]
  have hvalid : Nat.isValidChar c.toNat := Or.inl (by omega)
  rw [dif_pos hvalid]
  simp [Char.ofNat_toNat]

theorem parseStrBody_escape (cs rest : List Char) :
    parseStrBody (escapeList cs ++ ('"' :: rest)) = some (cs, rest) := by
  induction cs with
  | nil =>
    simp only [escapeList, List.nil_append]
    rw [parseStrBody.eq_def]
    simp
  | cons c cs ih =>
    rw [escapeList, List.append_assoc]
    by_cases h1 : c = '"'
    · subst h1
      simp only [escapeChar, reduceIte, List.cons_append, List.nil_append]
      rw [parseStrBody.eq_def]
      simp [ih]
    · by_cases h2 : c = '\\'
      · subst h2
        simp only [escapeChar, reduceIte, List.cons_append, List.nil_append]
        rw [parseStrBody.eq_def]
        simp [ih]
      · by_cases h3 : c = '\n'
        · subst h3
          simp only [escapeChar, reduceIte, List.cons_append, List.nil_append]
          rw [parseStrBody.eq_def]
          simp [ih]
        · by_cases h4 : c = '\r'
          · subst h4
            simp only [escapeChar, reduceIte, List.cons_append, List.nil_append]
            rw [parseStrBody.eq_def]
            simp [ih]
          · by_cases h5 : c = '\t'
            · subst h5
              simp only [escapeChar, reduceIte, List.cons_append, List.nil_append]
              rw [parseStrBody.eq_def]
              simp [ih]
            · by_cases h6 : c = '\x08'
              · subst h6
                simp only [escapeChar, reduceIte, List.cons_append, List.nil_append]
                rw [parseStrBody.eq_def]
                simp [ih]
              · by_cases h7 : c = '\x0c'
                · subst h7
                  simp only [escapeChar, reduceIte, List.cons_append, List.nil_append]
                  rw [parseStrBody.eq_def]
                  simp [ih]
                · by_cases h8 : c.toNat < 32
                  · rw [escapeChar]
                    simp only [h1, h2, h3, h4, h5, h6, h7, h8, if_false,
                      if_true, reduceIte, ite_true, List.cons_append,
                      List.nil_append]
                    rw [parseStrBody_u c h8, ih]
                    simp
                  · rw [escapeChar]
                    simp only [h1, h2, h3, h4, h5, h6, h7, h8, if_false,
                      reduceIte, List.cons_append, List.nil_append]
                    rw [parseStrBody.eq_def]
                    simp [h1, h2, ih]

theorem parseJString_append (s : String) (rest : List Char) :
    parseJString (renderStr s ++ rest) = some (s, rest) := by
  obtain ⟨data⟩ := s
  rw [renderStr]
  simp only [List.cons_append, List.append_assoc, List.singleton_append]
  rw [parseJString]
  simp [parseStrBody_escape]

theorem renderInt_cons (i : Int) :
    ∃ d ds, renderInt i = d :: ds ∧ (d = '-' ∨ d.isDigit = true) := by
  rw [renderInt]
  split
  · exact ⟨'-', _, rfl, Or.inl rfl⟩
  · obtain ⟨d, ds, hd⟩ := List.exists_cons_of_ne_nil (natDigits_ne_nil i.toNat)
    refine ⟨d, ds, hd, Or.inr ?_⟩
    exact natDigits_forall_digit i.toNat d (by rw [hd]; exact List.mem_cons_self d ds)

theorem parseJVal_append (v : PyVal) (rest : List Char)
    (h : noDigitHead rest = true) :
    parseJVal (renderPyVal v ++ rest) = some (v, rest) := by
  cases v with
  | str s =>
    obtain ⟨data⟩ := s
    rw [renderPyVal, renderStr]
    simp only [List.cons_append, List.append_assoc, List.singleton_append]
    rw [parseJVal]
    simp [parseStrBody_escape]
  | int i =>
    obtain ⟨d, ds, hd, hclass⟩ := renderInt_cons i
    have hdq : ¬ d = '"' := by
      rcases hclass with hc | hc
      · subst hc; decide
      · intro hcon
        rw [hcon] at hc
        simp at hc
    have hshape : renderPyVal (.int i) ++ rest = d :: (ds ++ rest) := by
      rw [renderPyVal, hd]; simp
    rw [hshape, parseJVal]
    simp only [hdq, if_false]
    have hback : d :: (ds ++ rest) = renderInt i ++ rest := by
      rw [hd]; simp
    rw [hback, parseJInt_append i rest h]
    simp

theorem noDigitHead_lit_append (s : String) (x : List Char)
    (h1 : noDigitHead s.data = true) (h2 : s.data ≠ []) :
    noDigitHead (s.data ++ x) = true := by
  cases hs : s.data with
  | nil => exact absurd hs h2
  | cons c t =>
    rw [hs] at h1
    simpa [noDigitHead] using h1

theorem parsePub_append (p : Publication) (rest : List Char) :
    parsePub (renderPub p ++ rest) = some (p, rest) := by
  have hndC : ∀ x : List Char, noDigitHead (litCitations.data ++ x) = true :=
    fun x => noDigitHead_lit_append _ x (by decide) (by decide)
  have hndU : ∀ x : List Char, noDigitHead (litUrl.data ++ x) = true :=
    fun x => noDigitHead_lit_append _ x (by decide) (by decide)
  rw [renderPub]
  simp only [List.append_assoc]
  rw [parsePub.eq_def]
  rw [expects_append]
  dsimp only
  rw [parseJString_append]
  dsimp only
  rw [expects_append]
  dsimp only
  rw [parseJString_append]
  dsimp only
  rw [expects_append]
  dsimp only
  rw [parseJString_append]
  dsimp only
  rw [expects_append]
  dsimp only
  rw [parseJVal_append _ _ (hndC _)]
  dsimp only
  rw [expects_append]
  dsimp only
  rw [parseJInt_append _ _ (hndU _)]
  dsimp only
  rw [expects_append]
  dsimp only
  rw [parseJString_append]
  dsimp only
  rw [expects_append]
  dsimp only
  rw [parseJString_append]
  dsimp only
  rw [expects_append]
  dsimp only
  rw [parseJString_append]
  dsimp only
  rw [expects_append]

theorem expects_close_sep (x : List Char) :
    expects litListClose.data (litListSep.data ++ x) = none := by
  have h1 : litListClose.data = '\n' :: [' ', ' ', ']'] := by decide
  have h2 : litListSep.data = ',' :: ['\n'] := by decide
  rw [h1, h2]
  simp [expects]

theorem expects_empty_open (x : List Char) :
    expects litListEmpty.data (litListOpen.data ++ x) = none := by
  have h1 : litListEmpty.data = '[' :: [']'] := by decide
  have h2 : litListOpen.data = '[' :: ['\n'] := by decide
  rw [h1, h2]
  simp [expects]

theorem expects_self (l : List Char) : expects l l = some [] := by
  have := expects_append l []
  simpa using this

theorem parsePubsTail_append (ps : List Publication) (rest : List Char) :
    ∀ fuel, ps.length < fuel →
      parsePubsTail fuel (renderPubsTail ps ++ (litListClose.data ++ rest)) =
        some (ps, rest) := by
  induction ps with
  | nil =>
    intro fuel hf
    cases fuel with
    | zero => omega
    | succ fuel =>
      rw [renderPubsTail, List.nil_append, parsePubsTail, expects_append]
  | cons p ps ih =>
    intro fuel hf
    cases fuel with
    | zero => omega
    | succ fuel =>
      rw [renderPubsTail]
      simp only [List.append_assoc]
      rw [parsePubsTail, expects_close_sep, expects_append]
      dsimp only
      rw [parsePub_append]
      dsimp only
      rw [ih fuel (by simpa using Nat.lt_of_succ_lt_succ hf)]
      rfl

theorem parsePubs_append (ps : List Publication) (rest : List Char)
    (fuel : Nat) (hf : ps.length < fuel) :
    parsePubs fuel (renderPubs ps ++ rest) = some (ps, rest) := by
  cases ps with
  | nil =>
    rw [renderPubs, parsePubs, expects_append]
  | cons p ps =>
    rw [renderPubs]
    simp only [List.append_assoc]
    rw [parsePubs, expects_empty_open, expects_append]
    dsimp only
    rw [parsePub_append]
    dsimp only
    rw [parsePubsTail_append ps rest fuel (by simpa using Nat.lt_of_succ_lt hf)]
    rfl

theorem renderPubsTail_length (ps : List Publication) :
    ps.length ≤ (renderPubsTail ps).length := by
  induction ps with
  | nil => simp [renderPubsTail]
  | cons p ps ih =>
    rw [renderPubsTail]
    simp only [List.length_append, List.length_cons]
    have h2 : litListSep.data.length = 2 := by decide
    omega

theorem renderPubs_length (ps : List Publication) :
    ps.length ≤ (renderPubs ps).length := by
  cases ps with
  | nil => simp [renderPubs]
  | cons p ps =>
    rw [renderPubs]
    simp only [List.length_append, List.length_cons]
    have h1 := renderPubsTail_length ps
    have h2 : litListOpen.data.length = 2 := by decide
    omega

theorem parseSnapshot_render (s : Snapshot) :
    parseSnapshot (renderSnapshotList s) = some (s, []) := by
  have hndH : ∀ x : List Char, noDigitHead (litHIndex.data ++ x) = true :=
    fun x => noDigitHead_lit_append _ x (by decide) (by decide)
  have hndI : ∀ x : List Char, noDigitHead (litI10.data ++ x) = true :=
    fun x => noDigitHead_lit_append _ x (by decide) (by decide)
  have hndP : ∀ x : List Char, noDigitHead (litPubsKey.data ++ x) = true :=
    fun x => noDigitHead_lit_append _ x (by decide) (by decide)
  obtain ⟨⟨cit, hidx, i10⟩, pubs, lu⟩ := s
  have hfuel : pubs.length <
      (litHead.data ++
        (renderInt cit ++
          (litHIndex.data ++
            (renderInt hidx ++
              (litI10.data ++
                (renderInt i10 ++
                  (litPubsKey.data ++
                    (renderPubs pubs ++
                      (litLastUpdated.data ++
                        (renderStr lu ++ litTail.data)))))))))).length + 1 := by
    have h1 := renderPubs_length pubs
    simp only [List.length_append]
    omega
  rw [parseSnapshot]
  conv =>
    lhs
    rw [renderSnapshotList]
  simp only [List.append_assoc]
  rw [expects_append]
  dsimp only
  rw [parseJInt_append _ _ (hndH _)]
  dsimp only
  rw [expects_append]
  dsimp only
  rw [parseJInt_append _ _ (hndI _)]
  dsimp only
  rw [expects_append]
  dsimp only
  rw [parseJInt_append _ _ (hndP _)]
  dsimp only
  rw [expects_append]
  dsimp only
  rw [parsePubs_append _ _ _ hfuel]
  dsimp only
  rw [expects_append]
  dsimp only
  rw [parseJString_append]
  dsimp only
  rw [expects_self]

/-- Full text-level round trip through the JSON sink. -/
theorem jsonLoadText_jsonDumpText (s : Snapshot) :
    jsonLoadText (jsonDumpText s) = some s := by
  rw [jsonLoadText, jsonDumpText]
  have hdata : (String.mk (renderSnapshotList s)).data = renderSnapshotList s := rfl
  rw [hdata, parseSnapshot_render]

/-- C2: for every raw stub, normalization substitutes defaults for missing
fields — empty string for title, authors and abstract, 0 for year and
citation count — and venue is the stub's journal value if present, else its
conference value if present, else empty; hence a stub missing journal,
conference and abstract yields venue = "" and abstract = "". -/
theorem claim_C2 (r : RawPub) :
    (mkPub r).title = r.bib.title.getD "" ∧
    (mkPub r).authors = r.bib.author.getD "" ∧
    (mkPub r).abstract = r.bib.abstract.getD "" ∧
    (mkPub r).year = r.bib.pub_year.getD (.int 0) ∧
    (mkPub r).citations = r.num_citations.getD 0 ∧
    (mkPub r).venue = (r.bib.journal.or r.bib.conference).getD "" ∧
    (r.bib.journal = none → r.bib.conference = none → r.bib.abstract = none →
      (mkPub r).venue = "" ∧ (mkPub r).abstract = "") := by
  refine ⟨rfl, rfl, rfl, rfl, rfl, ?_, ?_⟩
  · cases hj : r.bib.journal <;> cases hc : r.bib.conference <;>
      simp [mkPub, Option.or, hj, hc]
  · intro h1 h2 h3
    constructor
    · simp [mkPub, h1, h2]
    · simp [mkPub, h3]

theorem claim_C2_witness :
    (mkPub ⟨⟨none, none, none, none, none, none⟩, none, "pid"⟩).venue = "" ∧
    (mkPub ⟨⟨none, none, none, none, none, none⟩, none, "pid"⟩).abstract = "" :=
  (claim_C2 ⟨⟨none, none, none, none, none, none⟩, none, "pid"⟩).2.2.2.2.2.2
    rfl rfl rfl

/-- C8: for every normalized publication, the url equals the fixed Scholar
citation-URL prefix concatenated with the provider-assigned identifier, the
stored bib_id equals that identifier, and the url is determined by the
identifier alone. -/
theorem claim_C8 (r : RawPub) :
    (mkPub r).url = citationUrlBase ++ r.author_pub_id ∧
    (mkPub r).bib_id = r.author_pub_id ∧
    (∀ q : RawPub, q.author_pub_id = r.author_pub_id →
      (mkPub q).url = (mkPub r).url) := by
  refine ⟨rfl, rfl, ?_⟩
  intro q hq
  simp [mkPub, hq]

theorem claim_C8_witness :
    (mkPub ⟨⟨some "T", none, none, none, none, none⟩, some 7, "XYZ"⟩).url =
      citationUrlBase ++ "XYZ" ∧
    (mkPub ⟨⟨some "T", none, none, none, none, none⟩, some 7, "XYZ"⟩).bib_id = "XYZ" ∧
    (mkPub ⟨⟨none, none, some "J", none, none, none⟩, none, "XYZ"⟩).url =
      (mkPub ⟨⟨some "T", none, none, none, none, none⟩, some 7, "XYZ"⟩).url := by
  have h := claim_C8 ⟨⟨some "T", none, none, none, none, none⟩, some 7, "XYZ"⟩
  exact ⟨h.1, h.2.1, h.2.2 ⟨⟨none, none, some "J", none, none, none⟩, none, "XYZ"⟩ rfl⟩

/-- C4: if the top-level author fetch fails, `get_author_publications`
returns the null result, `main` writes no file, invokes no sink (no sink
status line appears), and prints the failure message; the run still
terminates normally. -/
theorem claim_C4 (w : World) (now : String) :
    get_author_publications none now = none ∧
    pyMain w none now =
      Except.ok [ScriptAction.print "Fetching publications from Google Scholar...",
                 ScriptAction.print "Failed to fetch publications"] ∧
    writesOf [ScriptAction.print "Fetching publications from Google Scholar...",
              ScriptAction.print "Failed to fetch publications"] = ([] : List (String × String)) ∧
    ScriptAction.print "Failed to fetch publications" ∈
      [ScriptAction.print "Fetching publications from Google Scholar...",
       ScriptAction.print "Failed to fetch publications"] ∧
    ScriptAction.print "Successfully saved publications to publications.json" ∉
      [ScriptAction.print "Fetching publications from Google Scholar...",
       ScriptAction.print "Failed to fetch publications"] := by
  refine ⟨rfl, rfl, rfl, by decide, by decide⟩

/-- C7: for every world, fetch outcome and timestamp — full success, partial
sink failure, or top-level fetch failure — `main` terminates normally and
the process exit status is 0. -/
theorem claim_C7 (w : World) (fetched : Option AuthorRecord) (now : String) :
    pyExitCode (pyMain w fetched now) = 0 ∧
    ∃ acts, pyMain w fetched now = Except.ok acts := by
  rw [pyMain]
  cases get_author_publications fetched now with
  | none => exact ⟨rfl, _, rfl⟩
  | some data => exact ⟨rfl, _, rfl⟩

/-- C1: in every returned snapshot the publication list is sorted
non-increasing by year key, and for each year the subsequence of
publications with that year equals the corresponding subsequence of the
input (fetch-order) list — i.e. the sort is stable. -/
theorem claim_C1 (a : AuthorRecord) (now : String) (s : Snapshot)
    (h : get_author_publications (some a) now = some s) :
    s.publications.Pairwise (fun p q => pubYearKey q ≤ pubYearKey p) ∧
    ∀ y : Int, s.publications.filter (fun p => pubYearKey p == y) =
      (normPubs a).filter (fun p => pubYearKey p == y) := by
  rw [get_author_publications] at h
  split at h
  · injection h with h
    subst h
    exact ⟨sortDesc_pairwise pubYearKey (normPubs a),
           fun y => filter_sortDesc pubYearKey (normPubs a) y⟩
  · exact absurd h (by simp)

theorem claim_C1_witness :
    get_author_publications (some c1Author) "t" = some c1Snap ∧
    c1Snap.publications.map (fun p => p.title) = ["B", "A", "C"] ∧
    c1Snap.publications.Pairwise (fun p q => pubYearKey q ≤ pubYearKey p) ∧
    c1Snap.publications.filter (fun p => pubYearKey p == 2020) =
      (normPubs c1Author).filter (fun p => pubYearKey p == 2020) := by
  have h : get_author_publications (some c1Author) "t" = some c1Snap := by decide
  exact ⟨h, by decide, (claim_C1 _ _ _ h).1, (claim_C1 _ _ _ h).2 2020⟩

/-- C3: when a publication's detail expansion fails it is dropped and the
run continues — for any author record whose successfully expanded
publications all carry parseable years, the run produces a snapshot whose
publication list is a permutation of (exactly) the normalized successfully
expanded records. -/
theorem claim_C3 (a : AuthorRecord) (now : String)
    (h : ∀ p ∈ normPubs a, (pyInt p.year).isSome = true) :
    ∃ s, get_author_publications (some a) now = some s ∧
      s.publications.Perm (normPubs a) := by
  rw [get_author_publications]
  have hall : (normPubs a).all (fun p => (pyInt p.year).isSome) = true :=
    List.all_eq_true.mpr h
  rw [if_pos hall]
  exact ⟨_, rfl, sortDesc_perm pubYearKey (normPubs a)⟩

theorem claim_C3_witness :
    get_author_publications (some c3Author) "now" = some c3Snap ∧
    c3Snap.publications.Perm (normPubs c3Author) := by
  obtain ⟨s, hs, hperm⟩ := claim_C3 c3Author "now" (by decide)
  have hsnap : get_author_publications (some c3Author) "now" = some c3Snap := by
    decide
  have hse : s = c3Snap := Option.some.inj (hs.symm.trans hsnap)
  exact ⟨hsnap, hse ▸ hperm⟩

/-- C10: if any successfully expanded publication carries a year that
`int()` cannot parse, the sort raises inside the top-level handler:
`get_author_publications` returns the null result and the whole run aborts
with the failure message and no outputs, instead of dropping only that
publication. -/
theorem claim_C10 (a : AuthorRecord) (now : String)
    (h : ∃ p ∈ normPubs a, pyInt p.year = none) :
    get_author_publications (some a) now = none ∧
    ∀ w : World,
      pyMain w (some a) now =
        Except.ok [ScriptAction.print "Fetching publications from Google Scholar...",
                   ScriptAction.print "Failed to fetch publications"] ∧
      writesOf [ScriptAction.print "Fetching publications from Google Scholar...",
                ScriptAction.print "Failed to fetch publications"] =
        ([] : List (String × String)) := by
  have hget : get_author_publications (some a) now = none := by
    rw [get_author_publications]
    rw [if_neg]
    intro hall
    obtain ⟨p, hp, hnone⟩ := h
    have := List.all_eq_true.mp hall p hp
    rw [hnone] at this
    simp at this
  refine ⟨hget, fun w => ⟨?_, rfl⟩⟩
  rw [pyMain, hget]

theorem claim_C10_witness :
    get_author_publications (some c10Author) "t" = none ∧
    pyMain { writeOk := fun _ => true, mkdirOk := true } (some c10Author) "t" =
      Except.ok [ScriptAction.print "Fetching publications from Google Scholar...",
                 ScriptAction.print "Failed to fetch publications"] := by
  have h := claim_C10 c10Author "t" ⟨mkPub c10Stub, by decide, by decide⟩
  exact ⟨h.1, (h.2 _).1⟩

/-- C9: when directory creation and the write succeed, the static-site sink
first creates the `_data` directory, then writes the YAML serialization of
the snapshot to the fixed path `_data/publications.yml`, and the YAML text —
like the JSON text — is determined by exactly the snapshot fields `stats`,
`publications` and `last_updated`. -/
theorem claim_C9 (w : World) (s : Snapshot)
    (h1 : w.mkdirOk = true) (h2 : w.writeOk "_data/publications.yml" = true) :
    save_publications_for_jekyll w s =
      [ScriptAction.mkdirp "_data",
       ScriptAction.write "_data/publications.yml" (yamlDumpText s),
       ScriptAction.print "Successfully saved publications to _data/publications.yml"] ∧
    (∀ t : Snapshot, t.stats = s.stats → t.publications = s.publications →
      t.last_updated = s.last_updated →
      yamlDumpText t = yamlDumpText s ∧ jsonDumpText t = jsonDumpText s) := by
  constructor
  · rw [save_publications_for_jekyll, fsMkdir, if_pos h1, fsWrite, if_pos h2]
    rfl
  · intro t ht1 ht2 ht3
    have hts : t = s := by
      obtain ⟨ts, tp, tl⟩ := t
      obtain ⟨ss, sp, sl⟩ := s
      simp_all
    rw [hts]
    exact ⟨rfl, rfl⟩

theorem claim_C9_witness :
    save_publications_for_jekyll { writeOk := fun _ => true, mkdirOk := true }
        ⟨⟨1, 2, 3⟩, [], "ts"⟩ =
      [ScriptAction.mkdirp "_data",
       ScriptAction.write "_data/publications.yml" (yamlDumpText ⟨⟨1, 2, 3⟩, [], "ts"⟩),
       ScriptAction.print "Successfully saved publications to _data/publications.yml"] ∧
    yamlDumpText ⟨⟨1, 2, 3⟩, [], "ts"⟩ = yamlDumpText ⟨⟨1, 2, 3⟩, [], "ts"⟩ := by
  have h := claim_C9 { writeOk := fun _ => true, mkdirOk := true }
    ⟨⟨1, 2, 3⟩, [], "ts"⟩ rfl rfl
  exact ⟨h.1, (h.2 ⟨⟨1, 2, 3⟩, [], "ts"⟩ rfl rfl rfl).1⟩

/-- C6: round trip — for every snapshot, the text the JSON sink writes
parses back to a snapshot field-for-field equal to the original (integers
of any magnitude and unicode strings included), and that text is exactly
what a successful `save_publications` writes to `publications.json`. -/
theorem claim_C6 (s : Snapshot) :
    jsonLoadText (jsonDumpText s) = some s ∧
    (∀ w : World, w.writeOk "publications.json" = true →
      writesOf (save_publications w s) = [("publications.json", jsonDumpText s)]) := by
  refine ⟨jsonLoadText_jsonDumpText s, ?_⟩
  intro w hw
  simp [save_publications, fsWrite, hw, writesOf]

theorem claim_C6_witness :
    jsonLoadText (jsonDumpText c6Snap) = some c6Snap ∧
    writesOf (save_publications { writeOk := fun _ => true, mkdirOk := true } c6Snap) =
      [("publications.json", jsonDumpText c6Snap)] :=
  ⟨(claim_C6 c6Snap).1, (claim_C6 c6Snap).2 _ rfl⟩

/-- C5: whenever a snapshot exists, `main` invokes all three sinks in
sequence; each sink's write happens exactly when its own file-system
operation succeeds, independent of the other sinks, and each sink leaves
exactly one status line (success or caught error) in the output. -/
theorem claim_C5 (w : World) (fetched : Option AuthorRecord) (now : String)
    (s : Snapshot) (h : get_author_publications fetched now = some s) :
    ∃ acts, pyMain w fetched now = Except.ok acts ∧
      acts = ScriptAction.print "Fetching publications from Google Scholar..." ::
        (save_publications w s ++ save_publications_for_jekyll w s ++
         generate_html_preview w s ++ statsReport s) ∧
      (("publications.json", jsonDumpText s) ∈ writesOf acts ↔
        w.writeOk "publications.json" = true) ∧
      (("_data/publications.yml", yamlDumpText s) ∈ writesOf acts ↔
        (w.mkdirOk = true ∧ w.writeOk "_data/publications.yml" = true)) ∧
      (("publications_preview.html", htmlText s) ∈ writesOf acts ↔
        w.writeOk "publications_preview.html" = true) ∧
      jsonReport w ∈ acts ∧ yamlReport w ∈ acts ∧ htmlReport w ∈ acts := by
  have hmain : pyMain w fetched now =
      Except.ok (ScriptAction.print "Fetching publications from Google Scholar..." ::
        (save_publications w s ++ save_publications_for_jekyll w s ++
         generate_html_preview w s ++ statsReport s)) := by
    rw [pyMain, h]
  refine ⟨_, hmain, rfl, ?_⟩
  cases hm : w.mkdirOk <;> cases hj : w.writeOk "publications.json" <;>
    cases hy : w.writeOk "_data/publications.yml" <;>
    cases hh : w.writeOk "publications_preview.html" <;>
    simp [save_publications, save_publications_for_jekyll,
          generate_html_preview, fsWrite, fsMkdir, writesOf, statsReport,
          jsonReport, yamlReport, htmlReport, hm, hj, hy, hh]

theorem claim_C5_witness :
    pyMain c5World (some c5Author) "ts" = Except.ok c5Acts ∧
    (("publications.json", jsonDumpText c5Snap) ∈ writesOf c5Acts ↔
      c5World.writeOk "publications.json" = true) ∧
    (("_data/publications.yml", yamlDumpText c5Snap) ∈ writesOf c5Acts ↔
      (c5World.mkdirOk = true ∧ c5World.writeOk "_data/publications.yml" = true)) ∧
    (("publications_preview.html", htmlText c5Snap) ∈ writesOf c5Acts ↔
      c5World.writeOk "publications_preview.html" = true) ∧
    jsonReport c5World ∈ c5Acts ∧ yamlReport c5World ∈ c5Acts ∧
    htmlReport c5World ∈ c5Acts := by
  obtain ⟨acts, hok, hacts, h3⟩ :=
    claim_C5 c5World (some c5Author) "ts" c5Snap (by decide)
  rw [hacts] at hok h3
  exact ⟨hok, h3⟩
